import Mathlib

/-!
Verification of the pgstream-wal2json WAL streaming engine against its
specification. The definitions below are a shallow embedding of the Go
sources: the Kafka batch writer (pkg/wal/processor/kafka/wal_kafka_batch_writer.go),
the Kafka listener (pkg/wal/listener/kafka/wal_kafka_reader.go), the
replication listener (pinned by its unit test
pkg/wal/listener/postgres/wal_pg_listener_test.go), and the search store
retrier (pinned by its unit test, src/unnamed/part_001).
-/

namespace PgstreamSpec

/-- Commit position: sum type with an empty value, a replication LSN string
form, and a bus coordinate. Modelled from the spec: the wal package itself is
not under src; `CommitPosition` supports `is_empty`, a string form and the two
variants described in the data model. -/
inductive CommitPosition where
  | empty : CommitPosition
  | pg (lsn : String) : CommitPosition
  | kafkaPos (topic : String) (partition : Nat) (offset : Nat) : CommitPosition
deriving DecidableEq

/-- `IsEmpty` holds exactly for the zero value of the position. -/
def CommitPosition.IsEmpty : CommitPosition → Bool
  | CommitPosition.empty => true
  | _ => false

/-- A column value: a tagged scalar. Only stringness is inspected by the code
under verification (`getMessageKey` checks `col.Value.(string)`). -/
inductive ColumnValue where
  | str (s : String)
  | intVal (n : Int)
  | boolVal (b : Bool)
  | nullVal
deriving DecidableEq

/-- A WAL column `{name, type, value}`. -/
structure WalColumn where
  name : String
  typ : String
  value : ColumnValue
deriving DecidableEq

/-- WAL data payload: action, schema, table, ordered columns. -/
structure WalData where
  action : String
  schema : String
  table : String
  columns : List WalColumn
deriving DecidableEq

/-- A WAL event: optional payload plus a commit position. A `none` payload is
a keep-alive. -/
structure WalEvent where
  data : Option WalData
  commitPosition : CommitPosition
deriving DecidableEq

/-- A bus (kafka) message: key and value byte strings. -/
structure KafkaMessage where
  key : String
  value : String
deriving DecidableEq

/-- The batch writer's internal `msg`: the kafka message (absent for a
keep-alive, where the Go code leaves the zero value) and the WAL commit
position. Modelled from the spec: the `msg` helper file is not under src;
its fields and operations follow section 4.G and the uses in
wal_kafka_batch_writer.go. -/
structure Msg where
  kmsg : Option KafkaMessage
  pos : CommitPosition
deriving DecidableEq

/-- Size of a message: the serialized payload length; a keep-alive has size 0.
Modelled from the spec (acquire `size` bytes of the serialized payload). -/
def Msg.size (m : Msg) : Nat :=
  match m.kmsg with
  | none => 0
  | some km => km.value.length

/-- A keep-alive carries only a position: no payload, non-empty position.
Modelled from the spec. -/
def Msg.isKeepAlive (m : Msg) : Bool :=
  m.kmsg.isNone && !m.pos.IsEmpty

/-- The pending batch `{msgs, total_bytes, last_pos}`. Modelled from the spec:
the `msgBatch` helper file is not under src; fields follow section 4.G. -/
structure MsgBatch where
  msgs : List KafkaMessage
  lastPos : CommitPosition
  totalBytes : Nat
deriving DecidableEq

/-- The zero pending batch. -/
def MsgBatch.empty : MsgBatch :=
  { msgs := [], lastPos := CommitPosition.empty, totalBytes := 0 }

/-- Adding a message to the pending batch: a keep-alive contributes no bus
message (a batch of only keep-alives has zero messages) but always advances
`last_pos`; `total_bytes` grows by the message size. Modelled from the spec. -/
def MsgBatch.add (b : MsgBatch) (m : Msg) : MsgBatch :=
  { msgs :=
      match m.kmsg with
      | none => b.msgs
      | some km => b.msgs ++ [km]
    lastPos := m.pos
    totalBytes := b.totalBytes + m.size }

/-- The batch writer's tunables and serialiser, as carried by the Go
`BatchWriter` struct. -/
structure BatchWriter where
  maxBatchBytes : Int
  maxBatchSize : Int
  serialiser : WalData → Except String String
  hasCheckpointer : Bool

/-- `processor.IsSchemaLogEvent`. Modelled from the spec: the processor
package file is not under src; a schema-log event is one whose (schema,
table) identify the pgstream schema-log row (spec sections 4.E and 8.6). -/
def IsSchemaLogEvent (d : WalData) : Bool :=
  d.schema == "pgstream" && d.table == "schema_log"

/-- The first column named `schema_name`, as found by the loop in
`getMessageKey`. -/
def findSchemaNameColumn (cols : List WalColumn) : Option WalColumn :=
  cols.find? (fun c => c.name == "schema_name")

/-- `BatchWriter.getMessageKey`: the routing key for a wal event. For
schema-log events the user schema is extracted from the `schema_name` column;
a missing column or a non-string value panics (embedded as an error). -/
def getMessageKey (d : WalData) : Except String String :=
  if IsSchemaLogEvent d then
    match findSchemaNameColumn d.columns with
    | none => Except.error "schema_log schema_name not found in columns"
    | some c =>
      match c.value with
      | ColumnValue.str s => Except.ok s
      | _ => Except.error "schema_log schema_name received is not a string"
  else
    Except.ok d.schema

/-- Result of `BatchWriter.ProcessWALEvent` on one event: a published message
with the semaphore bytes acquired for it, a silent drop of a too-large
record, or a returned error (marshalling failure or recovered panic). -/
inductive ProcessResult where
  | published (m : Msg) (acquiredBytes : Nat)
  | droppedTooLarge
  | errored (e : String)
deriving DecidableEq

/-- Messages published to the channel by one `ProcessWALEvent` call. -/
def ProcessResult.publishedMsgs : ProcessResult → List Msg
  | ProcessResult.published m _ => [m]
  | _ => []

/-- Semaphore bytes acquired by one `ProcessWALEvent` call. -/
def ProcessResult.acquiredBytes : ProcessResult → Nat
  | ProcessResult.published _ a => a
  | _ => 0

/-- Whether `ProcessWALEvent` returned without error. -/
def ProcessResult.isOk : ProcessResult → Bool
  | ProcessResult.errored _ => false
  | _ => true

/-- `BatchWriter.ProcessWALEvent`: build the kafka message for the event;
serialize the payload when present; drop the record with a warning when its
serialized size exceeds `maxBatchBytes` (returning OK, acquiring nothing);
compute the routing key (a panic there is recovered into a returned error);
otherwise acquire the message size from the queue-bytes semaphore and publish
to the channel. -/
def BatchWriter.processWALEvent (w : BatchWriter) (event : WalEvent) : ProcessResult :=
  match event.data with
  | none =>
    let m : Msg := { kmsg := none, pos := event.commitPosition }
    ProcessResult.published m m.size
  | some d =>
    match w.serialiser d with
    | Except.error e => ProcessResult.errored ("marshalling event: " ++ e)
    | Except.ok bytes =>
      if (bytes.length : Int) > w.maxBatchBytes then
        ProcessResult.droppedTooLarge
      else
        match getMessageKey d with
        | Except.error e =>
          ProcessResult.errored ("kafka batch writer: understanding event: " ++ e)
        | Except.ok key =>
          let m : Msg := { kmsg := some { key := key, value := bytes }, pos := event.commitPosition }
          ProcessResult.published m m.size

/-- One input to the `Send` run loop: a ticker tick or a message received on
the message channel. -/
inductive RunInput where
  | tick
  | message (m : Msg)
deriving DecidableEq

/-- The `Send` run loop: on a tick, drain the pending batch to the sender; on
a message, drain first when the batch would reach `maxBatchBytes`, the
message count equals `maxBatchSize`, or the message is a keep-alive; then add
the message to the (possibly fresh) pending batch. Returns the drained
batches in order and the final pending batch. -/
def sendLoop (w : BatchWriter) : List RunInput → MsgBatch → List MsgBatch × MsgBatch
  | [], pending => ([], pending)
  | RunInput.tick :: rest, _pending =>
    let out := sendLoop w rest MsgBatch.empty
    (_pending :: out.1, out.2)
  | RunInput.message m :: rest, pending =>
    if (pending.totalBytes : Int) + (m.size : Int) ≥ w.maxBatchBytes
        ∨ (pending.msgs.length : Int) = w.maxBatchSize
        ∨ m.isKeepAlive = true then
      let out := sendLoop w rest (MsgBatch.empty.add m)
      (pending :: out.1, out.2)
    else
      sendLoop w rest (pending.add m)

/-- Observable outcome of one `BatchWriter.sendBatch` call: the bus write
calls made, the checkpointer calls made, the checkpointer error that was only
logged as a warning (if any), and the error returned to the sender task. -/
structure SendBatchOutcome where
  busWrites : List (List KafkaMessage)
  checkpointCalls : List (List CommitPosition)
  warnedCheckpointError : Option String
  returnedError : Option String
deriving DecidableEq

/-- The checkpoint phase of `sendBatch`: when a checkpointer is configured and
the batch's last position is non-empty, call it with `[lastPos]`; a
checkpointer error is logged as a warning only. Returns (calls, warning). -/
def checkpointPhase (hasCkpt : Bool) (ckptResult : Except String Unit)
    (batch : MsgBatch) : List (List CommitPosition) × Option String :=
  if hasCkpt && !batch.lastPos.IsEmpty then
    ([[batch.lastPos]],
      match ckptResult with
      | Except.error e => some e
      | Except.ok _ => none)
  else
    ([], none)

/-- `BatchWriter.sendBatch`: write the batch's messages to the bus when there
are any (a failure is returned as the sendBatch error and skips the
checkpoint); then run the checkpoint phase; a checkpointer failure never
makes `sendBatch` return an error. `writeResult` and `ckptResult` stand for
the outcomes of the injected bus writer and checkpointer calls. -/
def sendBatch (hasCkpt : Bool) (writeResult ckptResult : Except String Unit)
    (batch : MsgBatch) : SendBatchOutcome :=
  if 0 < batch.msgs.length then
    match writeResult with
    | Except.error e =>
      { busWrites := [batch.msgs], checkpointCalls := [],
        warnedCheckpointError := none,
        returnedError := some ("kafka batch writer: writing to kafka: " ++ e) }
    | Except.ok _ =>
      let cp := checkpointPhase hasCkpt ckptResult batch
      { busWrites := [batch.msgs], checkpointCalls := cp.1,
        warnedCheckpointError := cp.2, returnedError := none }
  else
    let cp := checkpointPhase hasCkpt ckptResult batch
    { busWrites := [], checkpointCalls := cp.1,
      warnedCheckpointError := cp.2, returnedError := none }

/-- Observable run of the sender goroutine spawned by `Send`: the per-batch
outcomes, the semaphore releases in order, and the error sent on the error
channel (which makes the run loop return and stops the writer). -/
structure SenderRun where
  outcomes : List SendBatchOutcome
  releasedBytes : List Nat
  surfacedError : Option String
deriving DecidableEq

/-- The sender goroutine: for each drained batch, call `sendBatch`, release
the batch's total bytes back to the semaphore (before inspecting the error),
and on error surface it on the error channel and exit, leaving later batches
unprocessed. Each batch is paired with the injected bus write and
checkpointer outcomes for it. -/
def senderTask (hasCkpt : Bool) :
    List (MsgBatch × Except String Unit × Except String Unit) → SenderRun
  | [] => { outcomes := [], releasedBytes := [], surfacedError := none }
  | (b, wr, cr) :: rest =>
    let o := sendBatch hasCkpt wr cr b
    match o.returnedError with
    | some e =>
      { outcomes := [o], releasedBytes := [b.totalBytes], surfacedError := some e }
    | none =>
      let r := senderTask hasCkpt rest
      { outcomes := o :: r.outcomes,
        releasedBytes := b.totalBytes :: r.releasedBytes,
        surfacedError := r.surfacedError }

/-- A full happy-path run of the writer: feed the run-loop inputs through
`sendLoop` and hand every drained batch to the sender task with a successful
bus writer and checkpointer. -/
def pipelineRun (w : BatchWriter) (inputs : List RunInput) : SenderRun :=
  senderTask true
    (((sendLoop w inputs MsgBatch.empty).1).map
      (fun b => (b, Except.ok (), Except.ok ())))

/-- The checkpointer calls made over a happy-path run, in order. -/
def pipelineCheckpointCalls (w : BatchWriter) (inputs : List RunInput) :
    List (List CommitPosition) :=
  ((pipelineRun w inputs).outcomes.map SendBatchOutcome.checkpointCalls).flatten

/-- The bus writes made over a happy-path run, in order. -/
def pipelineBusWrites (w : BatchWriter) (inputs : List RunInput) :
    List (List KafkaMessage) :=
  ((pipelineRun w inputs).outcomes.map SendBatchOutcome.busWrites).flatten

/-- The kafka writer configuration fields inspected by `NewBatchWriter`. -/
structure KafkaWriterConfig where
  batchBytes : Int
  batchSize : Int
  maxQueueBytes : Int
deriving DecidableEq

/-- `defaultMaxQueueBytes`: 100 MiB. -/
def defaultMaxQueueBytes : Int := 100 * 1024 * 1024

/-- The queue-bytes semaphore capacity computed by `NewBatchWriter`: when
`MaxQueueBytes` is set (positive) it must be at least `BatchBytes`, otherwise
construction fails; when unset the capacity defaults to 100 MiB. -/
def newBatchWriterQueueCapacity (cfg : KafkaWriterConfig) : Except String Int :=
  if 0 < cfg.maxQueueBytes then
    if cfg.maxQueueBytes < cfg.batchBytes then
      Except.error "max queue bytes must be equal or bigger than the batch bytes"
    else
      Except.ok cfg.maxQueueBytes
  else
    Except.ok defaultMaxQueueBytes

/-- Errors as inspected by the listeners: context cancellation, the tests'
sentinel error, the replication connection-timeout sentinel, or any other
named error. -/
inductive GoError where
  | canceled
  | errTest
  | connTimeout
  | named (s : String)
deriving DecidableEq

/-- One iteration's fetch outcome for the kafka reader's `Listen` loop. -/
inductive FetchOutcome where
  | fetchErr (e : GoError)
  | fetched (value : String) (pos : CommitPosition)
deriving DecidableEq

/-- Observable run of the kafka `Reader.Listen` loop: the processor errors
logged with DATALOSS severity, and the error `Listen` returned. -/
structure ReaderRun where
  dataLossLogs : List GoError
  returned : Option GoError
deriving DecidableEq

/-- `Reader.Listen` (pkg/wal/listener/kafka/wal_kafka_reader.go): fetch a
message (an error there returns); unmarshal it (an error returns); call the
processor: a cancellation error returns, any other processor error is logged
with DATALOSS severity and the loop continues. Exhausting the input list
models context cancellation stopping the loop. -/
def readerListen (unmarshal : String → Except GoError WalData)
    (process : WalEvent → Except GoError Unit) :
    List FetchOutcome → ReaderRun
  | [] => { dataLossLogs := [], returned := some GoError.canceled }
  | FetchOutcome.fetchErr e :: _ => { dataLossLogs := [], returned := some e }
  | FetchOutcome.fetched v pos :: rest =>
    match unmarshal v with
    | Except.error e => { dataLossLogs := [], returned := some e }
    | Except.ok d =>
      match process { data := some d, commitPosition := pos } with
      | Except.ok _ => readerListen unmarshal process rest
      | Except.error e =>
        if e = GoError.canceled then
          { dataLossLogs := [], returned := some GoError.canceled }
        else
          let r := readerListen unmarshal process rest
          { dataLossLogs := e :: r.dataLossLogs, returned := r.returned }

/-- One receive outcome for the replication listener loop. -/
inductive RecvOutcome where
  | recvErr (e : GoError)
  | recvMsg (data : Option String) (lsn : Nat) (replyRequested : Bool)
deriving DecidableEq

/-- Observable run of the replication listener's `Listen` loop: the events
handed to the processor, and the error `Listen` returned. -/
structure PgListenRun where
  processedEvents : List WalEvent
  returned : Option GoError
deriving DecidableEq

/-- The replication listener's `Listen` loop. The implementation file is not
under src; this definition follows spec section 4.I constrained by the
repository's own unit test (wal_pg_listener_test.go), which fixes every
branch below and in particular requires processor errors to be returned
upward (test case named error - processing wal event expects the test
sentinel error back from Listen). `ConnTimeout` receive errors are retried;
other receive errors return; a nil-data message emits a keep-alive event only
when a reply is requested; deserialisation errors return; the listener is
validated against the full test table further down. -/
def pgListen (lsnToString : Nat → String)
    (deserialise : String → Except GoError WalData)
    (process : WalEvent → Except GoError Unit) :
    List RecvOutcome → PgListenRun
  | [] => { processedEvents := [], returned := some GoError.canceled }
  | RecvOutcome.recvErr e :: rest =>
    if e = GoError.connTimeout then pgListen lsnToString deserialise process rest
    else { processedEvents := [], returned := some e }
  | RecvOutcome.recvMsg none lsn reply :: rest =>
    if reply then
      let ev : WalEvent := { data := none, commitPosition := CommitPosition.pg (lsnToString lsn) }
      match process ev with
      | Except.error e => { processedEvents := [ev], returned := some e }
      | Except.ok _ =>
        let r := pgListen lsnToString deserialise process rest
        { processedEvents := ev :: r.processedEvents, returned := r.returned }
    else
      pgListen lsnToString deserialise process rest
  | RecvOutcome.recvMsg (some bytes) lsn _ :: rest =>
    match deserialise bytes with
    | Except.error e => { processedEvents := [], returned := some e }
    | Except.ok d =>
      let ev : WalEvent := { data := some d, commitPosition := CommitPosition.pg (lsnToString lsn) }
      match process ev with
      | Except.error e => { processedEvents := [ev], returned := some e }
      | Except.ok _ =>
        let r := pgListen lsnToString deserialise process rest
        { processedEvents := ev :: r.processedEvents, returned := r.returned }

/-- Failure severity of a search document error. -/
inductive Severity where
  | dataLoss
  | retriable
deriving DecidableEq

/-- A search document, identified by id. -/
structure Document where
  id : String
deriving DecidableEq

/-- A per-document failure report from the search store. -/
structure DocumentError where
  document : Document
  severity : Severity
  error : String
deriving DecidableEq

/-- The retriable subset of a store response. -/
def retriableOf (errs : List DocumentError) : List DocumentError :=
  errs.filter (fun e => e.severity == Severity.retriable)

/-- The data-loss subset of a store response. -/
def datalossOf (errs : List DocumentError) : List DocumentError :=
  errs.filter (fun e => e.severity == Severity.dataLoss)

/-- Observable run of `StoreRetrier.SendDocuments`: the final failed-document
report, the overall (transport) error, and the document batches sent to the
store, in order. -/
structure RetryRun where
  failed : List DocumentError
  storeErr : Option String
  sentBatches : List (List Document)
deriving DecidableEq

/-- Modelled from the spec: the `StoreRetrier.SendDocuments` implementation
is not under src (only its unit test, src/unnamed/part_001). The loop follows
spec section 4.H: call the store (the `attempt` counter numbers the calls
from 1); a transport error consumes a retry and repeats the same batch,
returning the error once the budget is exhausted; otherwise partition the
returned document errors: data-loss errors accumulate and are not retried,
the documents of retriable errors form the next batch; stop when no
retriable errors remain or the budget is exhausted, returning
retriable-remaining ++ dataloss-accumulated with no overall error. The fuel
is the total number of store calls allowed, 1 + max_retries. Validated
against the full test table of src/unnamed/part_001 further down. -/
def storeRetrierLoop (store : Nat → List Document → Except String (List DocumentError)) :
    Nat → Nat → List Document → List DocumentError → RetryRun
  | _, 0, _, dropped => { failed := dropped, storeErr := none, sentBatches := [] }
  | attempt, f + 1, docs, dropped =>
    match store attempt docs with
    | Except.error e =>
      if f = 0 then { failed := [], storeErr := some e, sentBatches := [docs] }
      else
        let r := storeRetrierLoop store (attempt + 1) f docs dropped
        { failed := r.failed, storeErr := r.storeErr, sentBatches := docs :: r.sentBatches }
    | Except.ok errs =>
      let dropped2 := dropped ++ datalossOf errs
      let retr := retriableOf errs
      if retr.isEmpty then
        { failed := dropped2, storeErr := none, sentBatches := [docs] }
      else if f = 0 then
        { failed := retr ++ dropped2, storeErr := none, sentBatches := [docs] }
      else
        let r := storeRetrierLoop store (attempt + 1) f
          (retr.map DocumentError.document) dropped2
        { failed := r.failed, storeErr := r.storeErr, sentBatches := docs :: r.sentBatches }

/-- `StoreRetrier.SendDocuments` with a backoff budget of `maxRetries`
retries: up to `1 + maxRetries` store calls. -/
def sendDocuments (store : Nat → List Document → Except String (List DocumentError))
    (maxRetries : Nat) (docs : List Document) : RetryRun :=
  storeRetrierLoop store 1 (1 + maxRetries) docs []

/-! Concrete fixtures from the store retrier unit test (src/unnamed/part_001):
three documents, a store returning a data-loss and a retriable failure for
document 1 on the first call and a retriable failure on later calls, and the
mock backoff budget of two retries. -/

/-- Test document 1. -/
def testDoc1 : Document := { id := "1" }

/-- Test document 2. -/
def testDoc2 : Document := { id := "2" }

/-- Test document 3. -/
def testDoc3 : Document := { id := "3" }

/-- The test's input batch. -/
def testDocs : List Document := [testDoc1, testDoc2, testDoc3]

/-- A failure entry for document 1 with the given severity, as built by the
test's `failedDocs` helper. -/
def failedDoc1 (sev : Severity) : DocumentError :=
  { document := testDoc1, severity := sev, error := "oh noes" }

/-- The store of the test case named ok - failed and dropped documents:
call 1 returns a data-loss and a retriable failure for document 1, calls 2
and 3 return a retriable failure for document 1. -/
def partialDatalossStore (attempt : Nat) (_docs : List Document) :
    Except String (List DocumentError) :=
  if attempt = 1 then
    Except.ok [failedDoc1 Severity.dataLoss, failedDoc1 Severity.retriable]
  else
    Except.ok [failedDoc1 Severity.retriable]

/-- Bytes contributed by one run-loop input: the size of a message, nothing
for a tick. -/
def inputSize : RunInput → Nat
  | RunInput.tick => 0
  | RunInput.message m => m.size

/-- Invariant of the run loop: if every message in the inputs fits in
`maxBatchBytes` and the pending batch is within bounds, every batch drained
by `sendLoop` is within bounds. -/
theorem sendLoop_bounds_aux (w : BatchWriter)
    (hbytes : 0 ≤ w.maxBatchBytes) (hsize : 1 ≤ w.maxBatchSize) :
    ∀ (inputs : List RunInput) (pending : MsgBatch),
      (∀ m, RunInput.message m ∈ inputs → (m.size : Int) ≤ w.maxBatchBytes) →
      (pending.totalBytes : Int) ≤ w.maxBatchBytes →
      (pending.msgs.length : Int) ≤ w.maxBatchSize →
      ∀ b ∈ (sendLoop w inputs pending).1,
        (b.totalBytes : Int) ≤ w.maxBatchBytes ∧ (b.msgs.length : Int) ≤ w.maxBatchSize := by
  intro inputs
  induction inputs with
  | nil =>
    intro pending _ _ _ b hb
    simp [sendLoop] at hb
  | cons i rest ih =>
    intro pending hadm hpb hpl b hb
    have hadmRest : ∀ m, RunInput.message m ∈ rest → (m.size : Int) ≤ w.maxBatchBytes :=
      fun m hm => hadm m (List.mem_cons_of_mem _ hm)
    cases i with
    | tick =>
      simp only [sendLoop] at hb
      rcases List.mem_cons.mp hb with h | h
      · subst h; exact ⟨hpb, hpl⟩
      · exact ih MsgBatch.empty hadmRest
          (by simpa [MsgBatch.empty] using hbytes)
          (by simp [MsgBatch.empty]; omega) b h
    | message m =>
      have hm : (m.size : Int) ≤ w.maxBatchBytes := hadm m (List.mem_cons_self _ _)
      simp only [sendLoop] at hb
      split at hb
      · rcases List.mem_cons.mp hb with h | h
        · subst h; exact ⟨hpb, hpl⟩
        · refine ih (MsgBatch.empty.add m) hadmRest ?_ ?_ b h
          · simpa [MsgBatch.add, MsgBatch.empty, Msg.size] using hm
          · cases hk : m.kmsg <;> simp [MsgBatch.add, MsgBatch.empty, hk] <;> omega
      · rename_i hc
        push_neg at hc
        obtain ⟨hc1, hc2, _⟩ := hc
        refine ih (pending.add m) hadmRest ?_ ?_ b hb
        · simp only [MsgBatch.add]
          push_cast
          omega
        · cases hk : m.kmsg
          · simpa [MsgBatch.add, hk] using hpl
          · simp only [MsgBatch.add, hk, List.length_append, List.length_cons,
              List.length_nil]
            push_cast at hpl hc2 ⊢
            omega

/-- C1: every batch drained by the run loop (tick, size or count trigger, or
keep-alive) has `total_bytes ≤ max_batch_bytes` and at most `max_batch_size`
messages, provided every message in the input stream was admitted by
`ProcessWALEvent` (whose published messages, the first conjunct shows, always
have size at most `max_batch_bytes` — including one of size exactly
`max_batch_bytes`, which is not dropped). -/
theorem c1_batch_bounds (w : BatchWriter) (inputs : List RunInput)
    (hbytes : 0 ≤ w.maxBatchBytes) (hsize : 1 ≤ w.maxBatchSize)
    (hadm : ∀ m, RunInput.message m ∈ inputs → (m.size : Int) ≤ w.maxBatchBytes) :
    (∀ event m a, w.processWALEvent event = ProcessResult.published m a →
      (m.size : Int) ≤ w.maxBatchBytes)
    ∧ ∀ b ∈ (sendLoop w inputs MsgBatch.empty).1,
        (b.totalBytes : Int) ≤ w.maxBatchBytes ∧ (b.msgs.length : Int) ≤ w.maxBatchSize := by
  constructor
  · intro event m a h
    unfold BatchWriter.processWALEvent at h
    split at h
    · injection h with h1 _
      subst h1
      simpa [Msg.size] using hbytes
    · split at h
      · exact absurd h (by simp)
      · split at h
        · exact absurd h (by simp)
        · split at h
          · exact absurd h (by simp)
          · injection h with h1 _
            subst h1
            simp only [Msg.size]
            omega
  · exact sendLoop_bounds_aux w hbytes hsize inputs MsgBatch.empty hadm
      (by simpa [MsgBatch.empty] using hbytes) (by simp [MsgBatch.empty]; omega)

/-- Fixture for the C1 witness: a writer whose serialiser emits the event's
schema name, with `maxBatchBytes = 4`. -/
def c1W : BatchWriter :=
  { maxBatchBytes := 4, maxBatchSize := 10,
    serialiser := fun d => Except.ok d.schema, hasCheckpointer := true }

/-- Fixture for the C1 witness: an event serializing to exactly 4 bytes. -/
def c1Event : WalEvent :=
  { data := some { action := "I", schema := "abcd", table := "t", columns := [] },
    commitPosition := CommitPosition.pg "0/1" }

/-- Fixture for the C1 witness: the message `ProcessWALEvent` publishes for
`c1Event`. -/
def c1Msg : Msg :=
  { kmsg := some { key := "abcd", value := "abcd" }, pos := CommitPosition.pg "0/1" }

/-- Fixture for the C1 witness: the batch holding exactly the size-4 message,
drained by the tick. -/
def c1Batch : MsgBatch :=
  { msgs := [{ key := "abcd", value := "abcd" }], lastPos := CommitPosition.pg "0/1",
    totalBytes := 4 }

theorem c1_batch_bounds_witness :
    c1W.processWALEvent c1Event = ProcessResult.published c1Msg 4
    ∧ ((c1Batch.totalBytes : Int) ≤ c1W.maxBatchBytes
        ∧ (c1Batch.msgs.length : Int) ≤ c1W.maxBatchSize) := by
  have h := c1_batch_bounds c1W [RunInput.message c1Msg, RunInput.tick]
    (by decide) (by decide)
    (by
      intro m hm
      rcases List.mem_cons.mp hm with h1 | h1
      · cases h1; decide
      · rcases List.mem_cons.mp h1 with h2 | h2
        · exact absurd h2 (by simp)
        · simp at h2)
  refine ⟨by decide, h.2 c1Batch ?_⟩
  decide

/-- C2: a WAL event whose serialized payload exceeds `maxBatchBytes` is
dropped with a warning: `ProcessWALEvent` publishes nothing, acquires no
semaphore bytes and returns OK, and a subsequent smaller event is published
normally. -/
theorem c2_drop_too_large (w : BatchWriter) (e1 e2 : WalEvent)
    (d1 d2 : WalData) (bytes1 bytes2 key2 : String)
    (h1 : e1.data = some d1) (hs1 : w.serialiser d1 = Except.ok bytes1)
    (hbig : (bytes1.length : Int) > w.maxBatchBytes)
    (h2 : e2.data = some d2) (hs2 : w.serialiser d2 = Except.ok bytes2)
    (hsmall : ¬ (bytes2.length : Int) > w.maxBatchBytes)
    (hkey : getMessageKey d2 = Except.ok key2) :
    w.processWALEvent e1 = ProcessResult.droppedTooLarge
    ∧ (w.processWALEvent e1).publishedMsgs = []
    ∧ (w.processWALEvent e1).acquiredBytes = 0
    ∧ (w.processWALEvent e1).isOk = true
    ∧ w.processWALEvent e2 =
        ProcessResult.published
          { kmsg := some { key := key2, value := bytes2 }, pos := e2.commitPosition }
          bytes2.length := by
  have he1 : w.processWALEvent e1 = ProcessResult.droppedTooLarge := by
    simp [BatchWriter.processWALEvent, h1, hs1, hbig]
  have he2 : w.processWALEvent e2 =
      ProcessResult.published
        { kmsg := some { key := key2, value := bytes2 }, pos := e2.commitPosition }
        bytes2.length := by
    simp [BatchWriter.processWALEvent, h2, hs2, hsmall, hkey, Msg.size]
  exact ⟨he1, by rw [he1]; rfl, by rw [he1]; rfl, by rw [he1]; rfl, he2⟩

/-- Fixture for the C2 witness: a 12-byte payload, larger than the 8-byte
`maxBatchBytes` below. -/
def c2Big : String := "aaaaaaaaaaaa"

/-- Fixture for the C2 witness: a writer with `maxBatchBytes = 8` whose
serialiser yields 12 bytes for the table named big and 5 bytes otherwise. -/
def c2W : BatchWriter :=
  { maxBatchBytes := 8, maxBatchSize := 100,
    serialiser := fun d => if d.table = "big" then Except.ok c2Big else Except.ok "small",
    hasCheckpointer := true }

/-- Fixture for the C2 witness: payload of the too-large event. -/
def c2D1 : WalData := { action := "I", schema := "public", table := "big", columns := [] }

/-- Fixture for the C2 witness: payload of the subsequent small event. -/
def c2D2 : WalData := { action := "I", schema := "public", table := "tiny", columns := [] }

/-- Fixture for the C2 witness: the too-large event. -/
def c2E1 : WalEvent := { data := some c2D1, commitPosition := CommitPosition.pg "0/1" }

/-- Fixture for the C2 witness: the subsequent small event. -/
def c2E2 : WalEvent := { data := some c2D2, commitPosition := CommitPosition.pg "0/2" }

theorem c2_drop_too_large_witness :
    c2W.processWALEvent c2E1 = ProcessResult.droppedTooLarge
    ∧ (c2W.processWALEvent c2E1).acquiredBytes = 0
    ∧ c2W.processWALEvent c2E2 =
        ProcessResult.published
          { kmsg := some { key := "public", value := "small" },
            pos := CommitPosition.pg "0/2" } 5 := by
  have h := c2_drop_too_large c2W c2E1 c2E2 c2D1 c2D2 c2Big "small" "public"
    rfl rfl (by decide) rfl rfl (by decide) rfl
  exact ⟨h.1, h.2.2.1, h.2.2.2.2⟩

/-- C5: the routing key of a non-schema-log event is its schema; the routing
key of a schema-log event is the string value of its first `schema_name`
column; a schema-log event with that column missing, or holding a non-string
value, makes `ProcessWALEvent` return an error (the recovered panic) instead
of publishing a message. -/
theorem c5_routing_key (w : BatchWriter) (d : WalData) :
    (IsSchemaLogEvent d = false → getMessageKey d = Except.ok d.schema)
    ∧ (∀ c s, IsSchemaLogEvent d = true → findSchemaNameColumn d.columns = some c →
        c.value = ColumnValue.str s → getMessageKey d = Except.ok s)
    ∧ (∀ ev bytes, ev.data = some d → w.serialiser d = Except.ok bytes →
        ¬ (bytes.length : Int) > w.maxBatchBytes →
        IsSchemaLogEvent d = true → findSchemaNameColumn d.columns = none →
        w.processWALEvent ev = ProcessResult.errored
          "kafka batch writer: understanding event: schema_log schema_name not found in columns")
    ∧ (∀ ev bytes c, ev.data = some d → w.serialiser d = Except.ok bytes →
        ¬ (bytes.length : Int) > w.maxBatchBytes →
        IsSchemaLogEvent d = true → findSchemaNameColumn d.columns = some c →
        (∀ s, c.value ≠ ColumnValue.str s) →
        w.processWALEvent ev = ProcessResult.errored
          "kafka batch writer: understanding event: schema_log schema_name received is not a string") := by
  refine ⟨?_, ?_, ?_, ?_⟩
  · intro hsl
    simp [getMessageKey, hsl]
  · intro c s hsl hfind hval
    simp [getMessageKey, hsl, hfind, hval]
  · intro ev bytes hev hser hfit hsl hfind
    have hk : getMessageKey d =
        Except.error "schema_log schema_name not found in columns" := by
      simp [getMessageKey, hsl, hfind]
    simp [BatchWriter.processWALEvent, hev, hser, hfit, hk]
  · intro ev bytes c hev hser hfit hsl hfind hnotstr
    have hk : getMessageKey d =
        Except.error "schema_log schema_name received is not a string" := by
      cases hcv : c.value with
      | str s => exact absurd hcv (hnotstr s)
      | intVal n => simp [getMessageKey, hsl, hfind, hcv]
      | boolVal b => simp [getMessageKey, hsl, hfind, hcv]
      | nullVal => simp [getMessageKey, hsl, hfind, hcv]
    simp [BatchWriter.processWALEvent, hev, hser, hfit, hk]

/-- Fixture for the C5 witness: an ordinary (non-schema-log) event payload. -/
def c5NonSL : WalData :=
  { action := "I", schema := "myschema", table := "users", columns := [] }

/-- Fixture for the C5 witness: a schema-log payload whose `schema_name`
column holds the string public. -/
def c5SL : WalData :=
  { action := "I", schema := "pgstream", table := "schema_log",
    columns := [{ name := "id", typ := "text", value := ColumnValue.str "xid" },
                { name := "schema_name", typ := "text", value := ColumnValue.str "public" }] }

/-- Fixture for the C5 witness: a schema-log payload without a `schema_name`
column. -/
def c5SLMissing : WalData :=
  { action := "I", schema := "pgstream", table := "schema_log",
    columns := [{ name := "id", typ := "text", value := ColumnValue.str "xid" }] }

/-- Fixture for the C5 witness: the non-string `schema_name` column. -/
def c5BadCol : WalColumn :=
  { name := "schema_name", typ := "int", value := ColumnValue.intVal 3 }

/-- Fixture for the C5 witness: a schema-log payload whose `schema_name`
column holds an integer. -/
def c5SLNotStr : WalData :=
  { action := "I", schema := "pgstream", table := "schema_log", columns := [c5BadCol] }

/-- Fixture for the C5 witness: a writer with a constant serialiser. -/
def c5Wr : BatchWriter :=
  { maxBatchBytes := 100, maxBatchSize := 10,
    serialiser := fun _ => Except.ok "payload", hasCheckpointer := true }

/-- Fixture for the C5 witness: event carrying `c5SLMissing`. -/
def c5EvMissing : WalEvent :=
  { data := some c5SLMissing, commitPosition := CommitPosition.pg "0/1" }

/-- Fixture for the C5 witness: event carrying `c5SLNotStr`. -/
def c5EvNotStr : WalEvent :=
  { data := some c5SLNotStr, commitPosition := CommitPosition.pg "0/2" }

theorem c5_routing_key_witness :
    getMessageKey c5NonSL = Except.ok "myschema"
    ∧ getMessageKey c5SL = Except.ok "public"
    ∧ c5Wr.processWALEvent c5EvMissing = ProcessResult.errored
        "kafka batch writer: understanding event: schema_log schema_name not found in columns"
    ∧ c5Wr.processWALEvent c5EvNotStr = ProcessResult.errored
        "kafka batch writer: understanding event: schema_log schema_name received is not a string" := by
  refine ⟨?_, ?_, ?_, ?_⟩
  · exact (c5_routing_key c5Wr c5NonSL).1 (by decide)
  · exact (c5_routing_key c5Wr c5SL).2.1
      { name := "schema_name", typ := "text", value := ColumnValue.str "public" }
      "public" (by decide) (by decide) (by decide)
  · exact (c5_routing_key c5Wr c5SLMissing).2.2.1 c5EvMissing "payload"
      rfl rfl (by decide) (by decide) (by decide)
  · exact (c5_routing_key c5Wr c5SLNotStr).2.2.2 c5EvNotStr "payload" c5BadCol
      rfl rfl (by decide) (by decide) (by decide)
      (fun s h => ColumnValue.noConfusion h)

/-- C4: a batch with zero messages but a non-empty last position gets no bus
write yet still has the checkpointer called with its last position; a batch
with an empty last position gets no checkpoint call at all. -/
theorem c4_keepalive_only_batch (batch batch2 : MsgBatch)
    (wr cr wr2 cr2 : Except String Unit)
    (h0 : batch.msgs = []) (hpos : batch.lastPos.IsEmpty = false)
    (hpos2 : batch2.lastPos.IsEmpty = true) :
    (sendBatch true wr cr batch).busWrites = []
    ∧ (sendBatch true wr cr batch).checkpointCalls = [[batch.lastPos]]
    ∧ (sendBatch true wr2 cr2 batch2).checkpointCalls = [] := by
  refine ⟨?_, ?_, ?_⟩
  · simp [sendBatch, h0]
  · simp [sendBatch, h0, checkpointPhase, hpos]
  · cases wr2 with
    | error e =>
      by_cases hl : 0 < batch2.msgs.length <;>
        simp [sendBatch, hl, checkpointPhase, hpos2]
    | ok u =>
      by_cases hl : 0 < batch2.msgs.length <;>
        simp [sendBatch, hl, checkpointPhase, hpos2]

/-- Fixture for the C4 witness: a keep-alive-only batch. -/
def c4Batch : MsgBatch :=
  { msgs := [], lastPos := CommitPosition.pg "0/A", totalBytes := 0 }

/-- Fixture for the C4 witness: a batch with a message but an empty last
position. -/
def c4Batch2 : MsgBatch :=
  { msgs := [{ key := "k", value := "v" }], lastPos := CommitPosition.empty,
    totalBytes := 1 }

theorem c4_keepalive_only_batch_witness :
    (sendBatch true (Except.ok ()) (Except.ok ()) c4Batch).busWrites = []
    ∧ (sendBatch true (Except.ok ()) (Except.ok ()) c4Batch).checkpointCalls
        = [[CommitPosition.pg "0/A"]]
    ∧ (sendBatch true (Except.ok ()) (Except.ok ()) c4Batch2).checkpointCalls = [] :=
  c4_keepalive_only_batch c4Batch c4Batch2
    (Except.ok ()) (Except.ok ()) (Except.ok ()) (Except.ok ()) rfl rfl rfl

/-- Fixture for the C6 counterexample: a batch with one message and a
non-empty last position. -/
def c6Batch : MsgBatch :=
  { msgs := [{ key := "k", value := "v" }], lastPos := CommitPosition.pg "0/1",
    totalBytes := 1 }

/-- C6 counterexample: a successful bus write followed by a failing
checkpointer call does not make `sendBatch` return an error and does not
make the sender task exit or surface anything on the error channel: the
checkpointer failure is only logged as a warning, and a second batch is
still processed. This refutes the claim that a checkpointer failure is
fatal. -/
theorem c6_counterexample :
    (sendBatch true (Except.ok ()) (Except.error "checkpoint failed") c6Batch).returnedError
      = none
    ∧ (sendBatch true (Except.ok ()) (Except.error "checkpoint failed") c6Batch).warnedCheckpointError
      = some "checkpoint failed"
    ∧ (senderTask true
        [(c6Batch, Except.ok (), Except.error "checkpoint failed"),
         (c6Batch, Except.ok (), Except.ok ())]).surfacedError = none
    ∧ (senderTask true
        [(c6Batch, Except.ok (), Except.error "checkpoint failed"),
         (c6Batch, Except.ok (), Except.ok ())]).outcomes.length = 2 := by
  decide

/-- C6 amended: a bus-write failure is what makes the sender task exit with
the wrapped error surfaced on the run loop's error channel, leaving later
batches unprocessed; a checkpointer failure after a successful (or skipped)
bus write is only logged as a warning — `sendBatch` returns no error and the
sender task continues with the next batch. -/
theorem c6_sender_failures (b b2 : MsgBatch) (cr : Except String Unit) (e e2 : String)
    (rest rest2 : List (MsgBatch × Except String Unit × Except String Unit))
    (hne : 0 < b.msgs.length) :
    (senderTask true ((b, Except.error e, cr) :: rest)).surfacedError
      = some ("kafka batch writer: writing to kafka: " ++ e)
    ∧ (senderTask true ((b, Except.error e, cr) :: rest)).outcomes.length = 1
    ∧ (sendBatch true (Except.ok ()) (Except.error e2) b2).returnedError = none
    ∧ (senderTask true ((b2, Except.ok (), Except.error e2) :: rest2)).surfacedError
      = (senderTask true rest2).surfacedError := by
  have hfail : (sendBatch true (Except.error e) cr b).returnedError
      = some ("kafka batch writer: writing to kafka: " ++ e) := by
    simp [sendBatch, hne]
  have hok : (sendBatch true (Except.ok ()) (Except.error e2) b2).returnedError = none := by
    by_cases hl : 0 < b2.msgs.length <;> simp [sendBatch, hl, checkpointPhase]
  refine ⟨?_, ?_, hok, ?_⟩
  · simp [senderTask, hfail]
  · simp [senderTask, hfail]
  · simp [senderTask, hok]

/-- Fixture for the C6 witness: a batch with one message. -/
def c6WBatch : MsgBatch :=
  { msgs := [{ key := "k", value := "vv" }], lastPos := CommitPosition.pg "0/2",
    totalBytes := 2 }

theorem c6_sender_failures_witness :
    (senderTask true [(c6WBatch, Except.error "broker down", Except.ok ())]).surfacedError
      = some "kafka batch writer: writing to kafka: broker down"
    ∧ (senderTask true
        [(c6WBatch, Except.ok (), Except.error "ckpt down"), (c6WBatch, Except.ok (), Except.ok ())]).surfacedError
      = (senderTask true [(c6WBatch, Except.ok (), Except.ok ())]).surfacedError := by
  have h := c6_sender_failures c6WBatch c6WBatch (Except.ok ()) "broker down" "ckpt down"
    [] [(c6WBatch, Except.ok (), Except.ok ())] (by decide)
  exact ⟨h.1, h.2.2.2⟩

/-- Fixture for C3: a writer with `maxBatchBytes = 1024` and
`maxBatchSize = 100`. -/
def c3W : BatchWriter :=
  { maxBatchBytes := 1024, maxBatchSize := 100,
    serialiser := fun _ => Except.ok "", hasCheckpointer := true }

/-- Fixture for C3: the position of the 100-byte event. -/
def c3P1 : CommitPosition := CommitPosition.pg "0/64"

/-- Fixture for C3: the keep-alive position X. -/
def c3X : CommitPosition := CommitPosition.pg "0/C8"

/-- Fixture for C3: the 100-byte kafka message. -/
def c3KMsg : KafkaMessage := { key := "public", value := String.mk (List.replicate 100 'a') }

/-- Fixture for C3: the 100-byte event message at position `c3P1`. -/
def c3Event : Msg := { kmsg := some c3KMsg, pos := c3P1 }

/-- Fixture for C3: the keep-alive at position `c3X`. -/
def c3KeepAlive : Msg := { kmsg := none, pos := c3X }

/-- C3 counterexample: for the input sequence of one 100-byte event at
position `c3P1` followed by one keep-alive at position `c3X`, the run loop
drains before adding the keep-alive, so the immediate drain checkpoints
`[c3P1]` — the checkpointer is never called with `[c3X]` in this run,
refuting the claim that the keep-alive-triggered drain checkpoints `[X]`. -/
theorem c3_counterexample :
    pipelineCheckpointCalls c3W [RunInput.message c3Event, RunInput.message c3KeepAlive]
      = [[c3P1]]
    ∧ [c3X] ∉ pipelineCheckpointCalls c3W
        [RunInput.message c3Event, RunInput.message c3KeepAlive]
    ∧ c3P1 ≠ c3X := by
  decide

/-- C3 amended: the keep-alive triggers an immediate drain of the pending
batch — one bus write with the single 100-byte record and a checkpoint with
the pending batch's own last position `[c3P1]`; the keep-alive's position
`c3X` starts the new pending batch and is checkpointed at the next drain
(here the next tick), with no bus write for that keep-alive-only batch. -/
theorem c3_keepalive_flush :
    pipelineBusWrites c3W
      [RunInput.message c3Event, RunInput.message c3KeepAlive, RunInput.tick]
      = [[c3KMsg]]
    ∧ pipelineCheckpointCalls c3W
        [RunInput.message c3Event, RunInput.message c3KeepAlive, RunInput.tick]
      = [[c3P1], [c3X]] := by
  decide

/-- Conservation: the bytes of drained batches plus the final pending bytes
equal the initial pending bytes plus the bytes of all input messages. -/
theorem sendLoop_bytes_aux (w : BatchWriter) :
    ∀ (inputs : List RunInput) (pending : MsgBatch),
      ((sendLoop w inputs pending).1.map MsgBatch.totalBytes).sum
        + (sendLoop w inputs pending).2.totalBytes
      = pending.totalBytes + (inputs.map inputSize).sum := by
  intro inputs
  induction inputs with
  | nil => intro pending; simp [sendLoop]
  | cons i rest ih =>
    intro pending
    cases i with
    | tick =>
      have h := ih MsgBatch.empty
      have h0 : MsgBatch.empty.totalBytes = 0 := rfl
      simp only [sendLoop, List.map_cons, List.sum_cons, inputSize]
      omega
    | message m =>
      simp only [sendLoop]
      split
      · have h := ih (MsgBatch.empty.add m)
        have h0 : (MsgBatch.empty.add m).totalBytes = m.size := by
          simp [MsgBatch.add, MsgBatch.empty]
        simp only [List.map_cons, List.sum_cons, inputSize]
        omega
      · have h := ih (pending.add m)
        have h0 : (pending.add m).totalBytes = pending.totalBytes + m.size := rfl
        simp only [List.map_cons, List.sum_cons, inputSize]
        omega

/-- A run whose last input is a tick ends with an empty pending batch. -/
theorem sendLoop_final_tick (w : BatchWriter) :
    ∀ (pre : List RunInput) (pending : MsgBatch),
      (sendLoop w (pre ++ [RunInput.tick]) pending).2 = MsgBatch.empty := by
  intro pre
  induction pre with
  | nil => intro pending; simp [sendLoop]
  | cons i rest ih =>
    intro pending
    cases i with
    | tick =>
      simp only [List.cons_append, sendLoop]
      exact ih MsgBatch.empty
    | message m =>
      simp only [List.cons_append, sendLoop]
      split
      · exact ih (MsgBatch.empty.add m)
      · exact ih (pending.add m)

/-- With a bus writer and checkpointer that always succeed, the sender task
releases exactly each batch's total bytes, once per batch and in order. -/
theorem senderTask_releases_all (hck : Bool) :
    ∀ (batches : List MsgBatch),
      (senderTask hck (batches.map (fun b => (b, Except.ok (), Except.ok ())))).releasedBytes
        = batches.map MsgBatch.totalBytes := by
  intro batches
  induction batches with
  | nil => simp [senderTask]
  | cons b rest ih =>
    have hok : (sendBatch hck (Except.ok ()) (Except.ok ()) b).returnedError = none := by
      by_cases hl : 0 < b.msgs.length <;> simp [sendBatch, hl, checkpointPhase]
    simp [senderTask, hok, ih]

/-- C9: byte accounting. A dropped too-large record acquires nothing; a
published message acquires exactly its size; the sender task releases a
handed batch's bytes first thing, on success or failure, and over an all-ok
run releases exactly once per batch; the drained bytes plus the pending
bytes always equal the acquired bytes, so no prefix of releases exceeds the
acquisitions (the semaphore never goes negative), and a run that ends with a
drain (final tick) has releases equal to acquisitions at shutdown. -/
theorem c9_byte_accounting (w : BatchWriter) (inputs : List RunInput) :
    (∀ ev, w.processWALEvent ev = ProcessResult.droppedTooLarge →
        (w.processWALEvent ev).acquiredBytes = 0)
    ∧ (∀ ev m a, w.processWALEvent ev = ProcessResult.published m a → a = m.size)
    ∧ (∀ (hck : Bool) b wr cr rest,
        (senderTask hck ((b, wr, cr) :: rest)).releasedBytes.head? = some b.totalBytes)
    ∧ (∀ (hck : Bool) (batches : List MsgBatch),
        (senderTask hck (batches.map (fun b => (b, Except.ok (), Except.ok ())))).releasedBytes
          = batches.map MsgBatch.totalBytes)
    ∧ ((sendLoop w inputs MsgBatch.empty).1.map MsgBatch.totalBytes).sum
        + (sendLoop w inputs MsgBatch.empty).2.totalBytes
      = (inputs.map inputSize).sum
    ∧ (∀ pre suf, (sendLoop w inputs MsgBatch.empty).1 = pre ++ suf →
        (pre.map MsgBatch.totalBytes).sum ≤ (inputs.map inputSize).sum)
    ∧ (∀ pre, inputs = pre ++ [RunInput.tick] →
        ((sendLoop w inputs MsgBatch.empty).1.map MsgBatch.totalBytes).sum
          = (inputs.map inputSize).sum) := by
  have hcons : ((sendLoop w inputs MsgBatch.empty).1.map MsgBatch.totalBytes).sum
      + (sendLoop w inputs MsgBatch.empty).2.totalBytes
      = (inputs.map inputSize).sum := by
    have h := sendLoop_bytes_aux w inputs MsgBatch.empty
    simpa [MsgBatch.empty] using h
  refine ⟨?_, ?_, ?_, ?_, hcons, ?_, ?_⟩
  · intro ev h
    rw [h]
    rfl
  · intro ev m a h
    unfold BatchWriter.processWALEvent at h
    split at h
    · injection h with h1 h2
      subst h1
      exact h2.symm
    · split at h
      · exact absurd h (by simp)
      · split at h
        · exact absurd h (by simp)
        · split at h
          · exact absurd h (by simp)
          · injection h with h1 h2
            subst h1
            exact h2.symm
  · intro hck b wr cr rest
    cases hr : (sendBatch hck wr cr b).returnedError <;> simp [senderTask, hr]
  · exact senderTask_releases_all
  · intro pre suf hsplit
    rw [hsplit] at hcons
    simp only [List.map_append, List.sum_append] at hcons
    omega
  · intro pre hpre
    have hfin : (sendLoop w inputs MsgBatch.empty).2 = MsgBatch.empty := by
      rw [hpre]
      exact sendLoop_final_tick w pre MsgBatch.empty
    rw [hfin] at hcons
    simpa [MsgBatch.empty] using hcons

/-- Fixture for the C9 witness: a writer for the accounting run. -/
def c9W : BatchWriter :=
  { maxBatchBytes := 1024, maxBatchSize := 100,
    serialiser := fun _ => Except.ok "", hasCheckpointer := true }

/-- Fixture for the C9 witness: a 2-byte message. -/
def c9M : Msg := { kmsg := some { key := "k", value := "ab" }, pos := CommitPosition.pg "0/1" }

/-- Fixture for the C9 witness: a keep-alive. -/
def c9KA : Msg := { kmsg := none, pos := CommitPosition.pg "0/2" }

/-- Fixture for the C9 witness: a run ending with a drain tick. -/
def c9Inputs : List RunInput :=
  [RunInput.message c9M, RunInput.message c9KA, RunInput.tick]

theorem c9_byte_accounting_witness :
    ((sendLoop c9W c9Inputs MsgBatch.empty).1.map MsgBatch.totalBytes).sum
      = (c9Inputs.map inputSize).sum
    ∧ (senderTask true ((sendLoop c9W c9Inputs MsgBatch.empty).1.map
        (fun b => (b, Except.ok (), Except.ok ())))).releasedBytes
      = (sendLoop c9W c9Inputs MsgBatch.empty).1.map MsgBatch.totalBytes := by
  have h := c9_byte_accounting c9W c9Inputs
  exact ⟨h.2.2.2.2.2.2 [RunInput.message c9M, RunInput.message c9KA] rfl,
         h.2.2.2.1 true (sendLoop c9W c9Inputs MsgBatch.empty).1⟩

/-- C10: constructing the batch writer with a set (positive) `MaxQueueBytes`
strictly smaller than `BatchBytes` fails with an error; with `MaxQueueBytes`
unset the semaphore capacity defaults to 100 MiB. -/
theorem c10_queue_bytes_validation (cfg : KafkaWriterConfig) :
    (0 < cfg.maxQueueBytes → cfg.maxQueueBytes < cfg.batchBytes →
      newBatchWriterQueueCapacity cfg
        = Except.error "max queue bytes must be equal or bigger than the batch bytes")
    ∧ (cfg.maxQueueBytes = 0 →
      newBatchWriterQueueCapacity cfg = Except.ok 104857600) := by
  constructor
  · intro hset hlt
    simp [newBatchWriterQueueCapacity, hset, hlt]
  · intro hunset
    simp [newBatchWriterQueueCapacity, hunset, defaultMaxQueueBytes]

theorem c10_queue_bytes_validation_witness :
    newBatchWriterQueueCapacity { batchBytes := 512, batchSize := 10, maxQueueBytes := 256 }
      = Except.error "max queue bytes must be equal or bigger than the batch bytes"
    ∧ newBatchWriterQueueCapacity { batchBytes := 512, batchSize := 10, maxQueueBytes := 0 }
      = Except.ok 104857600 :=
  ⟨(c10_queue_bytes_validation
      { batchBytes := 512, batchSize := 10, maxQueueBytes := 256 }).1
      (by decide) (by decide),
   (c10_queue_bytes_validation
      { batchBytes := 512, batchSize := 10, maxQueueBytes := 0 }).2 rfl⟩

/-- Store of the test case named ok: no failures. -/
def okStore (_attempt : Nat) (_docs : List Document) :
    Except String (List DocumentError) := Except.ok []

/-- Store of the test case named ok - transient error: a transport error on
call 1, success on call 2. -/
def transientStore (attempt : Nat) (_docs : List Document) :
    Except String (List DocumentError) :=
  if attempt = 1 then Except.error "oh noes" else Except.ok []

/-- Store of the test case named ok - all failed documents dropped. -/
def allDroppedStore (_attempt : Nat) (_docs : List Document) :
    Except String (List DocumentError) :=
  Except.ok [failedDoc1 Severity.dataLoss]

/-- Store of the test case named ok - some failed documents. -/
def someFailedStore (_attempt : Nat) (_docs : List Document) :
    Except String (List DocumentError) :=
  Except.ok [failedDoc1 Severity.retriable]

/-- Store of the test case named error - store error. -/
def errorStore (_attempt : Nat) (_docs : List Document) :
    Except String (List DocumentError) := Except.error "oh noes"

/-- The retrier model reproduces every row of the unit test table of
`TestStoreRetrier_SendDocuments` (src/unnamed/part_001) with the mock
backoff budget of two retries. -/
theorem storeRetrier_matches_test_table :
    sendDocuments okStore 2 testDocs
      = { failed := [], storeErr := none, sentBatches := [testDocs] }
    ∧ sendDocuments transientStore 2 testDocs
      = { failed := [], storeErr := none, sentBatches := [testDocs, testDocs] }
    ∧ sendDocuments partialDatalossStore 2 testDocs
      = { failed := [failedDoc1 Severity.retriable, failedDoc1 Severity.dataLoss],
          storeErr := none, sentBatches := [testDocs, [testDoc1], [testDoc1]] }
    ∧ sendDocuments allDroppedStore 2 testDocs
      = { failed := [failedDoc1 Severity.dataLoss], storeErr := none,
          sentBatches := [testDocs] }
    ∧ sendDocuments someFailedStore 2 testDocs
      = { failed := [failedDoc1 Severity.retriable], storeErr := none,
          sentBatches := [testDocs, [testDoc1], [testDoc1]] }
    ∧ sendDocuments errorStore 2 testDocs
      = { failed := [], storeErr := some "oh noes",
          sentBatches := [testDocs, testDocs, testDocs] } := by
  decide

/-- When the store never returns a transport error, the retrier returns no
overall error. -/
theorem storeRetrierLoop_storeErr_none
    (store : Nat → List Document → Except String (List DocumentError))
    (hok : ∀ i ds, ∃ l, store i ds = Except.ok l) :
    ∀ (fuel attempt : Nat) (docs : List Document) (dropped : List DocumentError),
      (storeRetrierLoop store attempt fuel docs dropped).storeErr = none := by
  intro fuel
  induction fuel with
  | zero => intro attempt docs dropped; rfl
  | succ f ih =>
    intro attempt docs dropped
    simp only [storeRetrierLoop]
    split
    · rename_i e heq
      obtain ⟨l, hl⟩ := hok attempt docs
      rw [hl] at heq
      exact absurd heq (by simp)
    · split
      · rfl
      · split
        · rfl
        · exact ih _ _ _

/-- The first batch a positive-fuel retrier run sends is its input batch. -/
theorem storeRetrierLoop_sent_head
    (store : Nat → List Document → Except String (List DocumentError)) :
    ∀ (fuel attempt : Nat) (docs : List Document) (dropped : List DocumentError),
      0 < fuel →
      ((storeRetrierLoop store attempt fuel docs dropped).sentBatches)[0]? = some docs := by
  intro fuel
  cases fuel with
  | zero => intro _ _ _ h; exact absurd h (by simp)
  | succ f =>
    intro attempt docs dropped _
    simp only [storeRetrierLoop]
    split
    · split <;> simp
    · split
      · simp
      · split <;> simp

/-- Round structure of the retrier under a transport-error-free store: every
batch sent after the first consists exactly of the documents of the
retriable errors of the previous round's response. -/
theorem storeRetrierLoop_chain
    (store : Nat → List Document → Except String (List DocumentError))
    (hok : ∀ i ds, ∃ l, store i ds = Except.ok l) :
    ∀ (fuel attempt : Nat) (docs : List Document) (dropped : List DocumentError)
      (i : Nat) (b2 : List Document),
      ((storeRetrierLoop store attempt fuel docs dropped).sentBatches)[i + 1]? = some b2 →
      ∃ b1 errs,
        ((storeRetrierLoop store attempt fuel docs dropped).sentBatches)[i]? = some b1
        ∧ store (attempt + i) b1 = Except.ok errs
        ∧ b2 = (retriableOf errs).map DocumentError.document := by
  intro fuel
  induction fuel with
  | zero =>
    intro attempt docs dropped i b2 h
    simp [storeRetrierLoop] at h
  | succ f ih =>
    intro attempt docs dropped i b2 h
    obtain ⟨errs, herrs⟩ := hok attempt docs
    simp only [storeRetrierLoop, herrs] at h ⊢
    split at h
    · rcases i with _ | j <;> simp at h
    · split at h
      · rcases i with _ | j <;> simp at h
      · rename_i hretr hf
        simp only [if_neg hretr, if_neg hf]
        cases i with
        | zero =>
          simp only [List.getElem?_cons_succ] at h
          have hhead := storeRetrierLoop_sent_head store f (attempt + 1)
            ((retriableOf errs).map DocumentError.document)
            (dropped ++ datalossOf errs) (Nat.pos_of_ne_zero hf)
          rw [h] at hhead
          exact ⟨docs, errs, by simp, by simpa using herrs, Option.some.inj hhead⟩
        | succ j =>
          simp only [List.getElem?_cons_succ] at h
          obtain ⟨b1, errs2, h1, h2, h3⟩ := ih (attempt + 1)
            ((retriableOf errs).map DocumentError.document)
            (dropped ++ datalossOf errs) j b2 h
          refine ⟨b1, errs2, ?_, ?_, h3⟩
          · simp only [List.getElem?_cons_succ]
            exact h1
          · have hcomm : attempt + (j + 1) = attempt + 1 + j := by omega
            rw [hcomm]
            exact h2

/-- C7 counterexample: in the claim's own scenario the store's first response
contains a data-loss error for document 1, yet document 1 is re-sent in the
second round (because the same response also contains a retriable error for
it) — refuting that a document which received a data-loss error is never
re-sent. -/
theorem c7_counterexample :
    ((sendDocuments partialDatalossStore 2 testDocs).sentBatches)[1]? = some [testDoc1]
    ∧ partialDatalossStore 1 testDocs
        = Except.ok [failedDoc1 Severity.dataLoss, failedDoc1 Severity.retriable] := by
  exact ⟨by decide, rfl⟩

/-- C7 amended: under a store with no transport errors the retrier returns a
nil overall error and re-sends each round exactly the documents of the
previous response's retriable errors (so data-loss errors never cause a
re-send, though a document also carrying a retriable error is still
re-sent); for the claim's scenario the result is the retriable remainder
followed by the accumulated data-loss errors, with nil error. -/
theorem c7_store_retrier
    (store : Nat → List Document → Except String (List DocumentError))
    (maxRetries : Nat) (docs : List Document)
    (hok : ∀ i ds, ∃ l, store i ds = Except.ok l) :
    (sendDocuments store maxRetries docs).storeErr = none
    ∧ (∀ (i : Nat) (b2 : List Document),
        ((sendDocuments store maxRetries docs).sentBatches)[i + 1]? = some b2 →
        ∃ b1 errs, ((sendDocuments store maxRetries docs).sentBatches)[i]? = some b1
          ∧ store (1 + i) b1 = Except.ok errs
          ∧ b2 = (retriableOf errs).map DocumentError.document)
    ∧ sendDocuments partialDatalossStore 2 testDocs
        = { failed := [failedDoc1 Severity.retriable, failedDoc1 Severity.dataLoss],
            storeErr := none,
            sentBatches := [testDocs, [testDoc1], [testDoc1]] } := by
  refine ⟨storeRetrierLoop_storeErr_none store hok _ _ _ _, ?_, by decide⟩
  intro i b2 h
  exact storeRetrierLoop_chain store hok _ _ _ _ i b2 h

theorem c7_store_retrier_witness :
    (sendDocuments partialDatalossStore 2 testDocs).storeErr = none
    ∧ sendDocuments partialDatalossStore 2 testDocs
        = { failed := [failedDoc1 Severity.retriable, failedDoc1 Severity.dataLoss],
            storeErr := none,
            sentBatches := [testDocs, [testDoc1], [testDoc1]] } := by
  have h := c7_store_retrier partialDatalossStore 2 testDocs
    (by
      intro i ds
      unfold partialDatalossStore
      by_cases hi : i = 1
      · exact ⟨_, by rw [if_pos hi]⟩
      · exact ⟨_, by rw [if_neg hi]⟩)
  exact ⟨h.1, h.2.2⟩

/-- The mock LSN of the replication listener test helper. -/
def testLSNNat : Nat := 7773397064

/-- The mock LSN parser of the test helper: every LSN prints as the test
string. -/
def mockLSNParser : Nat → String := fun _ => "1/CF54A048"

/-- The wal data produced by the test's deserialiser. -/
def c8Data : WalData := { action := "I", schema := "", table := "", columns := [] }

/-- The test's deserialiser: always yields an insert action. -/
def testWalDeserialiser : String → Except GoError WalData :=
  fun _ => Except.ok c8Data

/-- A processor that always succeeds. -/
def okProcessEvent : WalEvent → Except GoError Unit := fun _ => Except.ok ()

/-- A processor that always fails with the test sentinel error. -/
def errProcessEvent : WalEvent → Except GoError Unit :=
  fun _ => Except.error GoError.errTest

/-- A deserialiser that always fails with the test sentinel error. -/
def failDeserialiser : String → Except GoError WalData :=
  fun _ => Except.error GoError.errTest

/-- The event the test's ok rows expect the processor to receive. -/
def testWalEvent : WalEvent :=
  { data := some c8Data, commitPosition := CommitPosition.pg "1/CF54A048" }

/-- The replication listener model reproduces every row of the unit test
table of `TestListener_Listen` (wal_pg_listener_test.go): processed events
and the error `Listen` returns — in particular the row named error -
processing wal event expects the processor's own (non-cancellation) error
back from `Listen`. -/
theorem pgListen_matches_test_table :
    pgListen mockLSNParser testWalDeserialiser okProcessEvent
      [RecvOutcome.recvMsg (some "test-data") testLSNNat false]
      = { processedEvents := [testWalEvent], returned := some GoError.canceled }
    ∧ pgListen mockLSNParser testWalDeserialiser okProcessEvent
      [RecvOutcome.recvErr GoError.connTimeout,
       RecvOutcome.recvMsg (some "test-data") testLSNNat false]
      = { processedEvents := [testWalEvent], returned := some GoError.canceled }
    ∧ pgListen mockLSNParser testWalDeserialiser okProcessEvent
      [RecvOutcome.recvMsg none 0 false]
      = { processedEvents := [], returned := some GoError.canceled }
    ∧ pgListen mockLSNParser testWalDeserialiser okProcessEvent
      [RecvOutcome.recvMsg none testLSNNat true]
      = { processedEvents :=
            [{ data := none, commitPosition := CommitPosition.pg "1/CF54A048" }],
          returned := some GoError.canceled }
    ∧ pgListen mockLSNParser testWalDeserialiser okProcessEvent
      [RecvOutcome.recvErr GoError.errTest]
      = { processedEvents := [], returned := some GoError.errTest }
    ∧ pgListen mockLSNParser testWalDeserialiser errProcessEvent
      [RecvOutcome.recvMsg (some "test-data") testLSNNat false]
      = { processedEvents := [testWalEvent], returned := some GoError.errTest }
    ∧ pgListen mockLSNParser failDeserialiser okProcessEvent
      [RecvOutcome.recvMsg (some "test-data") testLSNNat false]
      = { processedEvents := [], returned := some GoError.errTest } := by
  decide

/-- C8 counterexample: on the repository's own test scenario the replication
listener returns the processor's error — the test sentinel, which is not a
context-cancellation error — upward from `Listen`, refuting the claim that
both listeners return processor errors upward only on cancellation. -/
theorem c8_counterexample :
    (pgListen mockLSNParser testWalDeserialiser errProcessEvent
      [RecvOutcome.recvMsg (some "test-data") testLSNNat false]).returned
      = some GoError.errTest
    ∧ GoError.errTest ≠ GoError.canceled := by
  decide

/-- C8 amended: the bus (kafka) listener logs a non-cancellation processor
error with DATALOSS severity and continues, and returns a cancellation
processor error; the replication listener, as its unit test requires,
returns the processor's error upward from `Listen`. -/
theorem c8_listener_error_propagation
    (unmarshal : String → Except GoError WalData)
    (process : WalEvent → Except GoError Unit)
    (v : String) (pos : CommitPosition) (rest : List FetchOutcome)
    (d : WalData) (e : GoError)
    (hu : unmarshal v = Except.ok d)
    (hp : process { data := some d, commitPosition := pos } = Except.error e) :
    (e ≠ GoError.canceled →
      readerListen unmarshal process (FetchOutcome.fetched v pos :: rest)
        = { dataLossLogs := e :: (readerListen unmarshal process rest).dataLossLogs,
            returned := (readerListen unmarshal process rest).returned })
    ∧ (e = GoError.canceled →
      readerListen unmarshal process (FetchOutcome.fetched v pos :: rest)
        = { dataLossLogs := [], returned := some GoError.canceled })
    ∧ (∀ (parser : Nat → String) (deser : String → Except GoError WalData)
        (proc2 : WalEvent → Except GoError Unit) (bytes : String) (lsn : Nat)
        (r2 : Bool) (rest2 : List RecvOutcome) (d2 : WalData) (e2 : GoError),
        deser bytes = Except.ok d2 →
        proc2 { data := some d2, commitPosition := CommitPosition.pg (parser lsn) }
          = Except.error e2 →
        (pgListen parser deser proc2
          (RecvOutcome.recvMsg (some bytes) lsn r2 :: rest2)).returned = some e2) := by
  refine ⟨?_, ?_, ?_⟩
  · intro hne
    simp [readerListen, hu, hp, hne]
  · intro hc
    subst hc
    simp [readerListen, hu, hp]
  · intro parser deser proc2 bytes lsn r2 rest2 d2 e2 hd2 hp2
    simp [pgListen, hd2, hp2]

theorem c8_listener_error_propagation_witness :
    readerListen testWalDeserialiser (fun _ => Except.error (GoError.named "boom"))
      [FetchOutcome.fetched "v" (CommitPosition.kafkaPos "t" 0 1)]
      = { dataLossLogs := [GoError.named "boom"], returned := some GoError.canceled }
    ∧ (pgListen mockLSNParser testWalDeserialiser errProcessEvent
        [RecvOutcome.recvMsg (some "test-data") testLSNNat false]).returned
      = some GoError.errTest := by
  have h := c8_listener_error_propagation testWalDeserialiser
    (fun _ => Except.error (GoError.named "boom")) "v"
    (CommitPosition.kafkaPos "t" 0 1) [] c8Data (GoError.named "boom") rfl rfl
  constructor
  · rw [h.1 (by decide)]
    rfl
  · exact h.2.2 mockLSNParser testWalDeserialiser errProcessEvent "test-data"
      testLSNNat false [] c8Data GoError.errTest rfl rfl

end PgstreamSpec
